import Mathlib

/-!
Verification of the order/payment lifecycle of the Code with Destiny backend
(src/app.py): the orders store, the four JSON endpoints (create order,
verify payment, get order, send book), and the HMAC-SHA256 signature check
used by payment verification.

The embedding is executable: SHA-256 and HMAC are implemented over byte
lists with Nat arithmetic mod 2^32, strings are UTF-8 encoded as in
Python's `str.encode`, and each Flask handler becomes a function from the
parsed request and the database state to a response, the new state, the
notification calls it made, and the payment-gateway calls it made.
-/

namespace CwD

/-! ## SHA-256 (FIPS 180-4) over byte lists -/

def w32 : Nat := 4294967296

def rotr (n x : Nat) : Nat := ((x >>> n) ||| (x <<< (32 - n))) % w32

def add32 (a b : Nat) : Nat := (a + b) % w32

def bsig0 (x : Nat) : Nat := (rotr 2 x) ^^^ (rotr 13 x) ^^^ (rotr 22 x)

def bsig1 (x : Nat) : Nat := (rotr 6 x) ^^^ (rotr 11 x) ^^^ (rotr 25 x)

def ssig0 (x : Nat) : Nat := (rotr 7 x) ^^^ (rotr 18 x) ^^^ (x >>> 3)

def ssig1 (x : Nat) : Nat := (rotr 17 x) ^^^ (rotr 19 x) ^^^ (x >>> 10)

def chf (x y z : Nat) : Nat := (x &&& y) ^^^ ((x ^^^ 4294967295) &&& z)

def majf (x y z : Nat) : Nat := (x &&& y) ^^^ (x &&& z) ^^^ (y &&& z)

/-- The 64 SHA-256 round constants, written in decimal. -/
def K256 : List Nat :=
  [1116352408, 1899447441, 3049323471, 3921009573, 961987163,
   1508970993, 2453635748, 2870763221, 3624381080, 310598401,
   607225278, 1426881987, 1925078388, 2162078206, 2614888103,
   3248222580, 3835390401, 4022224774, 264347078, 604807628,
   770255983, 1249150122, 1555081692, 1996064986, 2554220882,
   2821834349, 2952996808, 3210313671, 3336571891, 3584528711,
   113926993, 338241895, 666307205, 773529912, 1294757372,
   1396182291, 1695183700, 1986661051, 2177026350, 2456956037,
   2730485921, 2820302411, 3259730800, 3345764771, 3516065817,
   3600352804, 4094571909, 275423344, 430227734, 506948616,
   659060556, 883997877, 958139571, 1322822218, 1537002063,
   1747873779, 1955562222, 2024104815, 2227730452, 2361852424,
   2428436474, 2756734187, 3204031479, 3329325298]

/-- The eight SHA-256 initial hash values, written in decimal. -/
def H256 : List Nat :=
  [1779033703, 3144134277, 1013904242, 2773480762,
   1359893119, 2600822924, 528734635, 1541459225]

/-- One step of the message-schedule extension: appends word `w[t]` computed
from `w[t-2]`, `w[t-7]`, `w[t-15]`, `w[t-16]`. -/
def schedStep (w : List Nat) : List Nat :=
  let n := w.length
  w ++ [add32 (add32 (ssig1 (w.getD (n - 2) 0)) (w.getD (n - 7) 0))
              (add32 (ssig0 (w.getD (n - 15) 0)) (w.getD (n - 16) 0))]

def iterN (f : List Nat → List Nat) : Nat → List Nat → List Nat
  | 0, x => x
  | n + 1, x => iterN f n (f x)

/-- One compression round on the 8-word state. -/
def round256 (st : List Nat) (kw : Nat × Nat) : List Nat :=
  let a := st.getD 0 0
  let b := st.getD 1 0
  let c := st.getD 2 0
  let d := st.getD 3 0
  let e := st.getD 4 0
  let f := st.getD 5 0
  let g := st.getD 6 0
  let h := st.getD 7 0
  let t1 := add32 h (add32 (bsig1 e) (add32 (chf e f g) (add32 kw.1 kw.2)))
  let t2 := add32 (bsig0 a) (majf a b c)
  [add32 t1 t2, a, b, c, add32 d t1, e, f, g]

def compress256 (H : List Nat) (block : List Nat) : List Nat :=
  let w := iterN schedStep 48 block
  let st := (K256.zip w).foldl round256 H
  List.zipWith add32 H st

/-- Big-endian 32-bit words from bytes, 4 at a time. -/
def bytesToWords : List Nat → List Nat
  | b3 :: b2 :: b1 :: b0 :: rest =>
      (((b3 * 256 + b2) * 256 + b1) * 256 + b0) :: bytesToWords rest
  | _ => []

def lenBytes64 (n : Nat) : List Nat :=
  [(n >>> 56) % 256, (n >>> 48) % 256, (n >>> 40) % 256, (n >>> 32) % 256,
   (n >>> 24) % 256, (n >>> 16) % 256, (n >>> 8) % 256, n % 256]

/-- SHA-256 padding: append 0x80, zero bytes to 56 mod 64, then the 64-bit
big-endian bit length. -/
def padMsg (m : List Nat) : List Nat :=
  let z := (119 - (m.length % 64)) % 64
  m ++ 0x80 :: List.replicate z 0 ++ lenBytes64 (8 * m.length)

def chunksAux : Nat → List Nat → List (List Nat)
  | 0, _ => []
  | _ + 1, [] => []
  | n + 1, x :: xs => (x :: xs.take 63) :: chunksAux n (xs.drop 63)

def chunks64 (l : List Nat) : List (List Nat) := chunksAux l.length l

def sha256 (m : List Nat) : List Nat :=
  let padded := padMsg m
  let final := (chunks64 padded).foldl (fun h b => compress256 h (bytesToWords b)) H256
  final.foldr (fun w acc =>
    (w >>> 24) % 256 :: (w >>> 16) % 256 :: (w >>> 8) % 256 :: w % 256 :: acc) []

def hexDigitChar (n : Nat) : Char := if n < 10 then Char.ofNat (48 + n) else Char.ofNat (87 + n)

def bytesToHex (l : List Nat) : String :=
  ⟨l.foldr (fun b acc => hexDigitChar (b / 16) :: hexDigitChar (b % 16) :: acc) []⟩

/-- UTF-8 bytes of one character, as Python's `str.encode()` produces. -/
def utf8Char (c : Char) : List Nat :=
  let n := c.toNat
  if n < 0x80 then [n]
  else if n < 0x800 then [0xc0 ||| (n >>> 6), 0x80 ||| (n &&& 0x3f)]
  else if n < 0x10000 then
    [0xe0 ||| (n >>> 12), 0x80 ||| ((n >>> 6) &&& 0x3f), 0x80 ||| (n &&& 0x3f)]
  else
    [0xf0 ||| (n >>> 18), 0x80 ||| ((n >>> 12) &&& 0x3f),
     0x80 ||| ((n >>> 6) &&& 0x3f), 0x80 ||| (n &&& 0x3f)]

def utf8Bytes (s : String) : List Nat := s.data.foldr (fun c acc => utf8Char c ++ acc) []

/-- HMAC-SHA256 (RFC 2104) over byte lists; block size 64. -/
def hmacSha256 (key msg : List Nat) : List Nat :=
  let k0 := if 64 < key.length then sha256 key else key
  let kp := k0 ++ List.replicate (64 - k0.length) 0
  sha256 ((kp.map fun b => b ^^^ 0x5c) ++ sha256 ((kp.map fun b => b ^^^ 0x36) ++ msg))

/-- `hmac.new(key.encode(), msg.encode(), hashlib.sha256).hexdigest()` of
src/app.py lines 468-472. -/
def hmacHexDigest (key msg : String) : String :=
  bytesToHex (hmacSha256 (utf8Bytes key) (utf8Bytes msg))

/-! ## Data model: the `orders` and `payments` tables (src/app.py `init_db`) -/

structure OrderRec where
  id : String
  user_name : String
  user_email : String
  user_whatsapp : String
  amount : Int
  status : String
  payment_id : Option String
  created_at : Nat
  updated_at : Nat
deriving Repr, DecidableEq

/-- A row of the `payments` audit table. No code path of src/app.py ever
inserts into or updates this table; rows exist in the schema only. -/
structure PaymentRow where
  order_id : String
  razorpay_payment_id : Option String
  razorpay_order_id : Option String
  razorpay_signature : Option String
  amount : Int
  status : String
deriving Repr, DecidableEq

structure DB where
  orders : List OrderRec
  payments : List PaymentRow
deriving Repr, DecidableEq

/-- `init_db` creates both tables empty (src/app.py lines 101-139). -/
def init_db : DB := ⟨[], []⟩

/-- `insert_order` (src/app.py lines 146-160): INSERT of a new row with
status `created` and NULL payment_id; the primary-key conflict on a
duplicate id raises, is caught, and yields `False` with no row written. -/
def insert_order (now : Nat) (order_id name email whatsapp : String) (amount : Int)
    (orders : List OrderRec) : List OrderRec × Bool :=
  if orders.any (fun o => o.id == order_id) then (orders, false)
  else (orders ++ [⟨order_id, name, email, whatsapp, amount, "created", none, now, now⟩], true)

/-- `update_order_payment` (src/app.py lines 162-176): an UPDATE of every
row matching the id, setting payment_id, status and updated_at. A SQL
UPDATE that matches no row still succeeds, so the function returns `True`
regardless of whether the id is present. -/
def update_order_payment (now : Nat) (order_id payment_id status : String)
    (orders : List OrderRec) : List OrderRec × Bool :=
  (orders.map fun o =>
    if o.id == order_id then
      { o with payment_id := some payment_id, status := status, updated_at := now }
    else o, true)

/-- `get_order` (src/app.py lines 178-190): point lookup by id. -/
def get_order (order_id : String) (orders : List OrderRec) : Option OrderRec :=
  orders.find? (fun o => o.id == order_id)

/-! ## Request values and Python-level coercions -/

/-- A JSON value as a parsed request field can hold it: a string, an
integer, or null. -/
inductive JVal where
  | jstr (s : String)
  | jint (n : Int)
  | jnull
deriving Repr, DecidableEq

def isPySpace (c : Char) : Bool := c == ' ' || c == '\t' || c == '\n' || c == '\r'

def trimChars (l : List Char) : List Char :=
  ((l.dropWhile isPySpace).reverse.dropWhile isPySpace).reverse

/-- Python `str.strip()` (whitespace removal at both ends). -/
def pyStripStr (s : String) : String := ⟨trimChars s.data⟩

/-- `value.strip()` on a request field: only a string has `.strip`; on an
int or null the AttributeError propagates to the handler's `except` arm
(modelled as `none`). -/
def pyStrip : JVal → Option String
  | .jstr s => some (pyStripStr s)
  | _ => none

/-- Python `int(value)`: an int stays itself, a numeric string is parsed,
null (and a non-numeric string) raises, reaching the `except` arm. -/
def pyInt : JVal → Option Int
  | .jint n => some n
  | .jstr s => s.toInt?
  | .jnull => none

/-- Python truthiness of an optional string field: missing/None and the
empty string are falsy. -/
def truthy : Option String → Bool
  | none => false
  | some s => !(s == "")

/-- Python `c in s` for a one-character needle: character membership. -/
def strContains (s : String) (c : Char) : Bool := s.data.any (fun x => x == c)

/-! ## Responses and effects -/

/-- The projection of an order returned by GET /api/orders/(order_id)
(src/app.py lines 531-541): payment_id and whatsapp are omitted. -/
structure OrderProj where
  id : String
  user_name : String
  user_email : String
  amount : Int
  status : String
  created_at : Nat
deriving Repr, DecidableEq

/-- The JSON response envelope: HTTP code, `status`, `message`, and the
extra fields the handlers attach. -/
structure Resp where
  code : Nat
  status : String
  message : String
  order_id : Option String := none
  amount : Option Int := none
  is_free : Option Bool := none
  payment_id : Option String := none
  razorpay_order_id : Option String := none
  order_proj : Option OrderProj := none
deriving Repr, DecidableEq

/-- One notifier call: recipient, subject, and whether it was sent
synchronously (`send_email`) or fire-and-forget (`send_email_async`). -/
structure Email where
  recipient : String
  subject : String
  sync : Bool
deriving Repr, DecidableEq

def freeSubject : String := "🎉 Code with Destiny - Your Free Access is Ready!"

def paidSubject : String := "🎉 Code with Destiny - Your Book is Ready!"

def bookSubject : String := "📚 Code with Destiny - Your Book is Here!"

/-- What one handler invocation produced: the response, the database
afterwards, the notifier calls, and the minor-unit amounts passed to the
payment gateway's order-creation call. -/
structure EpOut where
  resp : Resp
  db : DB
  emails : List Email
  gwCalls : List Int
deriving Repr, DecidableEq

structure CreateReq where
  name : Option JVal := none
  email : Option JVal := none
  whatsapp : Option JVal := none
  amount : Option JVal := none
deriving Repr, DecidableEq

structure VerifyReq where
  razorpay_order_id : Option String := none
  razorpay_payment_id : Option String := none
  razorpay_signature : Option String := none
  order_id : Option String := none
deriving Repr, DecidableEq

structure SendBookReq where
  order_id : Option String := none
  email : Option String := none
deriving Repr, DecidableEq

/-! ## Endpoints -/

/-- POST /api/orders/create (src/app.py lines 309-437). `gw` is the
payment gateway's answer to `order.create`: the gateway-assigned order id,
or an exception (`Except.error`), which the handler's `except` arm turns
into a 500 response. `now` is `int(time.time())`. -/
def create_order (now : Nat) (gw : Except Unit String) (req : CreateReq) (db : DB) : EpOut :=
  match req.name, req.email, req.whatsapp, req.amount with
  | some nv, some ev, some wv, some av =>
    match pyStrip nv, pyStrip ev, pyStrip wv, pyInt av with
    | some name, some email, some whatsapp, some amount =>
      if !(strContains email '@') || !(strContains email '.') then
        ⟨{ code := 400, status := "error", message := "Invalid email address" }, db, [], []⟩
      else if amount < 0 then
        ⟨{ code := 400, status := "error", message := "Amount cannot be negative" }, db, [], []⟩
      else if amount == 0 then
        if (insert_order now ("FREE-" ++ toString now) name email whatsapp 0 db.orders).2 then
          ⟨{ code := 200, status := "success", message := "Free book access created. Email sent!",
             order_id := some ("FREE-" ++ toString now), amount := some 0, is_free := some true },
           { db with
             orders := (insert_order now ("FREE-" ++ toString now) name email whatsapp 0
               db.orders).1 },
           [⟨email, freeSubject, true⟩], []⟩
        else
          ⟨{ code := 500, status := "error", message := "Failed to create order" }, db, [], []⟩
      else
        match gw with
        | .error _ =>
          ⟨{ code := 500, status := "error", message := "Server error" }, db, [], [amount * 100]⟩
        | .ok gid =>
          if (insert_order now gid name email whatsapp amount db.orders).2 then
            ⟨{ code := 200, status := "success", message := "Order created successfully",
               order_id := some gid, amount := some amount, is_free := some false,
               razorpay_order_id := some gid },
             { db with orders := (insert_order now gid name email whatsapp amount db.orders).1 },
             [], [amount * 100]⟩
          else
            ⟨{ code := 500, status := "error", message := "Failed to save order" }, db, [],
             [amount * 100]⟩
    | _, _, _, _ => ⟨{ code := 500, status := "error", message := "Server error" }, db, [], []⟩
  | _, _, _, _ =>
    ⟨{ code := 400, status := "error",
       message := "Missing required fields: name, email, whatsapp, amount" }, db, [], []⟩

/-- POST /api/payments/verify (src/app.py lines 439-517). `secret` is the
configured RAZORPAY_KEY_SECRET; `now` the time of the UPDATE. -/
def verify_payment (now : Nat) (secret : String) (req : VerifyReq) (db : DB) : EpOut :=
  if !(truthy req.razorpay_order_id && truthy req.razorpay_payment_id &&
       truthy req.razorpay_signature && truthy req.order_id) then
    ⟨{ code := 400, status := "error", message := "Missing payment verification data" },
     db, [], []⟩
  else
    let ro := req.razorpay_order_id.getD ""
    let rp := req.razorpay_payment_id.getD ""
    let rs := req.razorpay_signature.getD ""
    let oid := req.order_id.getD ""
    if hmacHexDigest secret (ro ++ "|" ++ rp) == rs then
      let orders2 := (update_order_payment now oid rp "paid" db.orders).1
      ⟨{ code := 200, status := "success", message := "Payment verified successfully",
         payment_id := some rp, order_id := some oid },
       { db with orders := orders2 },
       (match get_order oid orders2 with
        | some o => [⟨o.user_email, paidSubject, false⟩]
        | none => []), []⟩
    else
      ⟨{ code := 400, status := "error",
         message := "Payment verification failed - Invalid signature" }, db, [], []⟩

/-- GET /api/orders/(order_id) (src/app.py lines 519-548): pure lookup,
projecting out payment_id and whatsapp. -/
def get_order_details (order_id : String) (db : DB) : EpOut :=
  match get_order order_id db.orders with
  | none => ⟨{ code := 404, status := "error", message := "Order not found" }, db, [], []⟩
  | some o =>
    ⟨{ code := 200, status := "success", message := "",
       order_proj := some ⟨o.id, o.user_name, o.user_email, o.amount, o.status, o.created_at⟩ },
     db, [], []⟩

/-- POST /api/send-book (src/app.py lines 550-618). -/
def send_book (req : SendBookReq) (db : DB) : EpOut :=
  if !(truthy req.order_id && truthy req.email) then
    ⟨{ code := 400, status := "error", message := "Missing order_id or email" }, db, [], []⟩
  else
    match get_order (req.order_id.getD "") db.orders with
    | none => ⟨{ code := 404, status := "error", message := "Order not found" }, db, [], []⟩
    | some _ =>
      ⟨{ code := 200, status := "success", message := "Book sent successfully",
         order_id := req.order_id },
       db, [⟨req.email.getD "", bookSubject, true⟩], []⟩

/-- The record a successful verification writes for the matching order. -/
def updOrder (now : Nat) (pid st : String) (o : OrderRec) : OrderRec :=
  { o with payment_id := some pid, status := st, updated_at := now }

/-- `paidPreserved s t`: every order of `s` with status `paid` is still
present in `t` (same id) with status `paid`. -/
def paidPreserved (s t : List OrderRec) : Prop :=
  ∀ o ∈ s, o.status = "paid" → ∃ o' ∈ t, o'.id = o.id ∧ o'.status = "paid"

/-- `pidStable s t`: every order of `s` persists in `t` with the same id,
payment_id and status. -/
def pidStable (s t : List OrderRec) : Prop :=
  ∀ o ∈ s, ∃ o' ∈ t, o'.id = o.id ∧ o'.payment_id = o.payment_id ∧ o'.status = o.status

/-- `freshCreated s t`: any order of `t` whose id was not in `s` has
status `created` and no payment_id. -/
def freshCreated (s t : List OrderRec) : Prop :=
  ∀ o' ∈ t, (∀ o ∈ s, o.id ≠ o'.id) → o'.status = "created" ∧ o'.payment_id = none

/-! ## Shape lemmas about the digest: a hex HMAC-SHA256 digest has 64
characters, hence is never the empty string. -/

theorem round256_length (st : List Nat) (kw : Nat × Nat) : (round256 st kw).length = 8 := rfl

theorem foldl_round256_length (l : List (Nat × Nat)) (st : List Nat) (h : st.length = 8) :
    (l.foldl round256 st).length = 8 := by
  induction l generalizing st with
  | nil => exact h
  | cons x xs ih => exact ih _ (round256_length _ _)

theorem compress256_length (H b : List Nat) (h : H.length = 8) :
    (compress256 H b).length = 8 := by
  simp [compress256, List.length_zipWith, h, foldl_round256_length _ _ h]

theorem foldl_compress_length (bs : List (List Nat)) (H : List Nat) (h : H.length = 8) :
    (bs.foldl (fun h b => compress256 h (bytesToWords b)) H).length = 8 := by
  induction bs generalizing H with
  | nil => exact h
  | cons x xs ih => exact ih _ (compress256_length _ _ h)

theorem wordFoldr_length (l : List Nat) :
    (l.foldr (fun w acc =>
      (w >>> 24) % 256 :: (w >>> 16) % 256 :: (w >>> 8) % 256 :: w % 256 :: acc) []).length
      = 4 * l.length := by
  induction l with
  | nil => rfl
  | cons x xs ih => simp only [List.foldr_cons, List.length_cons, ih]; omega

theorem sha256_length (m : List Nat) : (sha256 m).length = 32 := by
  simp only [sha256, wordFoldr_length]
  rw [foldl_compress_length (chunks64 (padMsg m)) H256 (by rfl)]

theorem hmacSha256_length (key msg : List Nat) : (hmacSha256 key msg).length = 32 := by
  simp [hmacSha256, sha256_length]

theorem hexFoldr_length (l : List Nat) :
    (l.foldr (fun b acc => hexDigitChar (b / 16) :: hexDigitChar (b % 16) :: acc) []).length
      = 2 * l.length := by
  induction l with
  | nil => rfl
  | cons x xs ih => simp only [List.foldr_cons, List.length_cons, ih]; omega

theorem bytesToHex_length (l : List Nat) : (bytesToHex l).length = 2 * l.length :=
  hexFoldr_length l

theorem hmacHexDigest_length (key msg : String) : (hmacHexDigest key msg).length = 64 := by
  simp [hmacHexDigest, bytesToHex_length, hmacSha256_length]

theorem hmacHexDigest_ne_empty (key msg : String) : hmacHexDigest key msg ≠ "" := by
  intro h
  have h64 := hmacHexDigest_length key msg
  rw [h] at h64
  simp at h64

theorem truthy_digest (key msg : String) : truthy (some (hmacHexDigest key msg)) = true := by
  simp [truthy, hmacHexDigest_ne_empty key msg]

/-! ## Store lemmas -/

theorem updOrder_id (now : Nat) (pid st : String) (o : OrderRec) :
    (updOrder now pid st o).id = o.id := rfl

theorem update_order_payment_eq (now : Nat) (oid pid st : String) (orders : List OrderRec) :
    update_order_payment now oid pid st orders
      = (orders.map fun o => if o.id == oid then updOrder now pid st o else o, true) := rfl

/-- `find?` commutes with a map that does not change the predicate's
verdict. -/
theorem find?_map_comm (p : OrderRec → Bool) (f : OrderRec → OrderRec)
    (hf : ∀ o, p (f o) = p o) (l : List OrderRec) :
    (l.map f).find? p = (l.find? p).map f := by
  induction l with
  | nil => rfl
  | cons o rest ih =>
    by_cases hpo : p o = true
    · rw [List.map_cons, List.find?_cons_of_pos (rest.map f) ((hf o).trans hpo),
          List.find?_cons_of_pos rest hpo]
      rfl
    · rw [List.map_cons,
          List.find?_cons_of_neg (rest.map f) (by simp only [hf o]; exact hpo),
          List.find?_cons_of_neg rest hpo, ih]

/-- Lookup after the payment update: the found record, updated. -/
theorem get_order_update (now : Nat) (oid pid st : String) (orders : List OrderRec) :
    get_order oid (update_order_payment now oid pid st orders).1
      = (get_order oid orders).map (updOrder now pid st) := by
  have hmain := find?_map_comm (fun o => o.id == oid)
    (fun o => if o.id == oid then updOrder now pid st o else o)
    (fun o => by by_cases h : o.id = oid <;> simp [updOrder, h]) orders
  show (orders.map fun o => if o.id == oid then updOrder now pid st o else o).find?
      (fun o => o.id == oid) = _
  rw [hmain]
  show _ = (orders.find? fun o => o.id == oid).map (updOrder now pid st)
  cases hfind : orders.find? (fun o => o.id == oid) with
  | none => rfl
  | some a =>
    have hpa := List.find?_some hfind
    simp only [Option.map_some']
    rw [if_pos hpa]

/-- An update whose id matches no row leaves the table unchanged. -/
theorem update_order_payment_absent (now : Nat) (oid pid st : String)
    (orders : List OrderRec) (h : ∀ o ∈ orders, o.id ≠ oid) :
    (update_order_payment now oid pid st orders).1 = orders := by
  have h2 : orders.map (fun o => if o.id == oid then updOrder now pid st o else o)
      = orders.map id :=
    List.map_congr_left (fun o ho => by simp [h o ho])
  show (orders.map fun o => if o.id == oid then updOrder now pid st o else o) = orders
  rw [h2, List.map_id]

theorem get_order_absent (oid : String) (orders : List OrderRec)
    (h : ∀ o ∈ orders, o.id ≠ oid) : get_order oid orders = none :=
  List.find?_eq_none.mpr (fun o ho => by simp [h o ho])

theorem insert_order_success (now : Nat) (oid nm em wa : String) (amt : Int)
    (orders : List OrderRec) (h : (insert_order now oid nm em wa amt orders).2 = true) :
    (insert_order now oid nm em wa amt orders).1
      = orders ++ [⟨oid, nm, em, wa, amt, "created", none, now, now⟩] := by
  by_cases hc : orders.any (fun o => o.id == oid) = true
  · simp [insert_order, hc] at h
  · simp [insert_order, hc]

theorem insert_order_fail (now : Nat) (oid nm em wa : String) (amt : Int)
    (orders : List OrderRec) (h : (insert_order now oid nm em wa amt orders).2 = false) :
    (insert_order now oid nm em wa amt orders).1 = orders := by
  by_cases hc : orders.any (fun o => o.id == oid) = true
  · simp [insert_order, hc]
  · simp [insert_order, hc] at h

/-! ## Frame lemmas: how each handler can change the orders table -/

theorem create_order_orders_cases (now : Nat) (gw : Except Unit String) (req : CreateReq)
    (db : DB) :
    (create_order now gw req db).db.orders = db.orders ∨
    ∃ oid nm em wa amt, (create_order now gw req db).db.orders
      = db.orders ++ [⟨oid, nm, em, wa, amt, "created", none, now, now⟩] := by
  unfold create_order
  repeat' split
  all_goals first
    | (left; rfl)
    | (rename_i h
       right
       exact ⟨_, _, _, _, _, insert_order_success _ _ _ _ _ _ _ h⟩)

theorem verify_payment_orders_cases (now : Nat) (secret : String) (req : VerifyReq) (db : DB) :
    (verify_payment now secret req db).db.orders = db.orders ∨
    (verify_payment now secret req db).db.orders
      = (update_order_payment now (req.order_id.getD "") (req.razorpay_payment_id.getD "")
          "paid" db.orders).1 := by
  simp only [verify_payment]
  repeat' split
  all_goals first
    | (left; rfl)
    | (right; rfl)

theorem get_order_details_db (goid : String) (db : DB) : (get_order_details goid db).db = db := by
  unfold get_order_details
  split <;> rfl

theorem send_book_db (req : SendBookReq) (db : DB) : (send_book req db).db = db := by
  unfold send_book
  repeat' split
  all_goals rfl

theorem pidStable_refl (s : List OrderRec) : pidStable s s :=
  fun o ho => ⟨o, ho, rfl, rfl, rfl⟩

theorem pidStable_append (s t : List OrderRec) : pidStable s (s ++ t) :=
  fun o ho => ⟨o, List.mem_append_left t ho, rfl, rfl, rfl⟩

theorem pidStable_paidPreserved (s t : List OrderRec) (h : pidStable s t) :
    paidPreserved s t := fun o ho hp =>
  let ⟨o', ho', hid, _, hst⟩ := h o ho
  ⟨o', ho', hid, hst.trans hp⟩

theorem freshCreated_refl (s : List OrderRec) : freshCreated s s :=
  fun o' h hnot => absurd rfl (hnot o' h)

theorem freshCreated_append_new (s : List OrderRec) (oid nm em wa : String) (amt : Int)
    (now : Nat) :
    freshCreated s (s ++ [⟨oid, nm, em, wa, amt, "created", none, now, now⟩]) := by
  intro o' ho' hnot
  rcases List.mem_append.mp ho' with hin | hin
  · exact absurd rfl (hnot o' hin)
  · cases List.mem_singleton.mp hin
    exact ⟨rfl, rfl⟩

theorem paidPreserved_update (now : Nat) (oid pid : String) (s : List OrderRec) :
    paidPreserved s (update_order_payment now oid pid "paid" s).1 := by
  intro o ho hp
  refine ⟨if o.id == oid then updOrder now pid "paid" o else o,
    List.mem_map_of_mem _ ho, ?_, ?_⟩
  · by_cases h : o.id = oid <;> simp [updOrder, h]
  · by_cases h : o.id = oid <;> simp [updOrder, h, hp]

theorem freshCreated_update (now : Nat) (oid pid st : String) (s : List OrderRec) :
    freshCreated s (update_order_payment now oid pid st s).1 := by
  intro o' ho' hnot
  rcases List.mem_map.mp ho' with ⟨o, ho, rfl⟩
  have hid : (if o.id == oid then updOrder now pid st o else o).id = o.id := by
    by_cases h : o.id = oid <;> simp [updOrder, h]
  exact absurd hid.symm (hnot o ho)

/-! ## Evaluation lemmas for the verification endpoint -/

/-- With all four fields non-empty and the supplied signature equal to the
expected digest, the handler takes the success branch. -/
theorem verify_payment_valid (now : Nat) (secret ro rp oid : String) (db : DB)
    (hro : ro ≠ "") (hrp : rp ≠ "") (hoid : oid ≠ "") :
    verify_payment now secret
        ⟨some ro, some rp, some (hmacHexDigest secret (ro ++ "|" ++ rp)), some oid⟩ db
      = ⟨{ code := 200, status := "success", message := "Payment verified successfully",
           payment_id := some rp, order_id := some oid },
         { db with orders := (update_order_payment now oid rp "paid" db.orders).1 },
         (match get_order oid (update_order_payment now oid rp "paid" db.orders).1 with
          | some o => [⟨o.user_email, paidSubject, false⟩]
          | none => []), []⟩ := by
  simp [verify_payment, truthy, hro, hrp, hoid, hmacHexDigest_ne_empty secret (ro ++ "|" ++ rp)]

/-- With all four fields non-empty and the supplied signature different
from the expected digest, the handler answers 400 and changes nothing. -/
theorem verify_payment_mismatch (now : Nat) (secret ro rp rs oid : String) (db : DB)
    (hro : ro ≠ "") (hrp : rp ≠ "") (hrs : rs ≠ "") (hoid : oid ≠ "")
    (hsig : hmacHexDigest secret (ro ++ "|" ++ rp) ≠ rs) :
    verify_payment now secret ⟨some ro, some rp, some rs, some oid⟩ db
      = ⟨{ code := 400, status := "error",
           message := "Payment verification failed - Invalid signature" }, db, [], []⟩ := by
  simp [verify_payment, truthy, hro, hrp, hrs, hoid, hsig]

/-! ## Claims -/

/-- C1: for every gateway order id, payment id, secret and supplied
signature (all non-empty, so that the request reaches the signature
check), payment verification reports success exactly when the supplied
signature equals the hex-encoded HMAC-SHA256 digest of the message
`orderId|paymentId` keyed with the secret; every other string — including
the digest computed with a different secret, whenever it differs — is
rejected. -/
theorem c1_signature_check (now : Nat) (secret ro rp rs oid : String) (db : DB)
    (hro : ro ≠ "") (hrp : rp ≠ "") (hrs : rs ≠ "") (hoid : oid ≠ "") :
    (verify_payment now secret ⟨some ro, some rp, some rs, some oid⟩ db).resp.status = "success"
      ↔ rs = hmacHexDigest secret (ro ++ "|" ++ rp) := by
  by_cases h : hmacHexDigest secret (ro ++ "|" ++ rp) = rs
  · rw [← h, verify_payment_valid now secret ro rp oid db hro hrp hoid]
    simp
  · rw [verify_payment_mismatch now secret ro rp rs oid db hro hrp hrs hoid h]
    constructor
    · intro hc
      have hes : ("error" : String) = "success" := hc
      exact absurd hes (by decide)
    · intro hc
      exact absurd hc.symm h

theorem c1_signature_check_witness :
    (("ro" : String) ≠ "") ∧
    ((verify_payment 0 "sec" ⟨some "ro", some "rp", some "zz", some "o1"⟩ init_db).resp.status
        = "success"
      ↔ "zz" = hmacHexDigest "sec" ("ro" ++ "|" ++ "rp")) :=
  ⟨by decide,
   c1_signature_check 0 "sec" "ro" "rp" "zz" "o1" init_db
     (by decide) (by decide) (by decide) (by decide)⟩

/-- C2: a verification request whose four fields are present (non-empty)
but whose supplied signature differs from the expected digest yields the
signature-mismatch error response, leaves the database untouched, and
invokes no notifier and no gateway call. -/
theorem c2_mismatch_no_mutation (now : Nat) (secret ro rp rs oid : String) (db : DB)
    (hro : ro ≠ "") (hrp : rp ≠ "") (hrs : rs ≠ "") (hoid : oid ≠ "")
    (hsig : hmacHexDigest secret (ro ++ "|" ++ rp) ≠ rs) :
    verify_payment now secret ⟨some ro, some rp, some rs, some oid⟩ db
      = ⟨{ code := 400, status := "error",
           message := "Payment verification failed - Invalid signature" }, db, [], []⟩ :=
  verify_payment_mismatch now secret ro rp rs oid db hro hrp hrs hoid hsig

theorem c2_mismatch_no_mutation_witness :
    verify_payment 0 "sec" ⟨some "ro", some "rp", some "zz", some "o1"⟩ init_db
      = ⟨{ code := 400, status := "error",
           message := "Payment verification failed - Invalid signature" }, init_db, [], []⟩ :=
  c2_mismatch_no_mutation 0 "sec" "ro" "rp" "zz" "o1" init_db
    (by decide) (by decide) (by decide) (by decide)
    (fun h => absurd (h ▸ hmacHexDigest_length "sec" ("ro" ++ "|" ++ "rp")) (by decide))

/-- C5 counterexample: a create request whose name is all whitespace —
empty after trimming — is not rejected: it succeeds and the order is
persisted with an empty user_name. -/
theorem c5_counterexample :
    (create_order 7 (Except.error ())
        ⟨some (JVal.jstr " "), some (JVal.jstr "a@b.c"), some (JVal.jstr "+91"),
         some (JVal.jint 0)⟩ init_db).resp.status = "success" ∧
    (create_order 7 (Except.error ())
        ⟨some (JVal.jstr " "), some (JVal.jstr "a@b.c"), some (JVal.jstr "+91"),
         some (JVal.jint 0)⟩ init_db).db.orders
      = [⟨"FREE-7", "", "a@b.c", "+91", 0, "created", none, 7, 7⟩] := by
  constructor <;> decide

/-- C5 (amended): CreateOrder fails with a client validation error (and
persists nothing) when any of the four fields is missing, when the trimmed
email does not contain both a `@` and a `.` character, or when the integer
amount is negative. Non-emptiness of name and whatsapp after trimming is
not validated (see the counterexample: an all-whitespace name is
accepted). -/
theorem c5_amended (now : Nat) (gw : Except Unit String) (nm em wa : String) (amt : Int)
    (creq : CreateReq) (db : DB) :
    ((creq.name = none ∨ creq.email = none ∨ creq.whatsapp = none ∨ creq.amount = none) →
      create_order now gw creq db
        = ⟨{ code := 400, status := "error",
             message := "Missing required fields: name, email, whatsapp, amount" }, db, [], []⟩) ∧
    ((strContains (pyStripStr em) '@' = false ∨ strContains (pyStripStr em) '.' = false) →
      create_order now gw
          ⟨some (JVal.jstr nm), some (JVal.jstr em), some (JVal.jstr wa), some (JVal.jint amt)⟩ db
        = ⟨{ code := 400, status := "error", message := "Invalid email address" }, db, [], []⟩) ∧
    (strContains (pyStripStr em) '@' = true → strContains (pyStripStr em) '.' = true →
      amt < 0 →
      create_order now gw
          ⟨some (JVal.jstr nm), some (JVal.jstr em), some (JVal.jstr wa), some (JVal.jint amt)⟩ db
        = ⟨{ code := 400, status := "error", message := "Amount cannot be negative" },
           db, [], []⟩) := by
  refine ⟨?_, ?_, ?_⟩
  · intro hmiss
    rcases creq with ⟨n, e, w, a⟩
    cases n <;> cases e <;> cases w <;> cases a <;> simp_all [create_order]
  · intro hbad
    rcases hbad with hb | hb <;> simp [create_order, pyStrip, pyInt, hb]
  · intro hb1 hb2 hneg
    simp [create_order, pyStrip, pyInt, hb1, hb2, hneg]

/-- C7: for a valid create request with amount 0, the handler synthesizes
the order id `FREE-<unixSeconds>`, never calls the payment gateway, and —
when persistence succeeds (no id conflict) — stores the record with status
`created` and synchronously sends exactly one notification with the
free-access template; when persistence fails it answers with the 500
persistence error and changes nothing. -/
theorem c7_free_path (now : Nat) (gw : Except Unit String) (nm em wa : String) (db : DB)
    (h1 : strContains (pyStripStr em) '@' = true)
    (h2 : strContains (pyStripStr em) '.' = true) :
    (create_order now gw
        ⟨some (JVal.jstr nm), some (JVal.jstr em), some (JVal.jstr wa), some (JVal.jint 0)⟩
        db).gwCalls = [] ∧
    (db.orders.any (fun o => o.id == "FREE-" ++ toString now) = false →
      create_order now gw
          ⟨some (JVal.jstr nm), some (JVal.jstr em), some (JVal.jstr wa), some (JVal.jint 0)⟩ db
        = ⟨{ code := 200, status := "success",
             message := "Free book access created. Email sent!",
             order_id := some ("FREE-" ++ toString now), amount := some 0,
             is_free := some true },
           { db with orders := db.orders ++
               [⟨"FREE-" ++ toString now, pyStripStr nm, pyStripStr em, pyStripStr wa, 0,
                 "created", none, now, now⟩] },
           [⟨pyStripStr em, freeSubject, true⟩], []⟩) ∧
    (db.orders.any (fun o => o.id == "FREE-" ++ toString now) = true →
      create_order now gw
          ⟨some (JVal.jstr nm), some (JVal.jstr em), some (JVal.jstr wa), some (JVal.jint 0)⟩ db
        = ⟨{ code := 500, status := "error", message := "Failed to create order" },
           db, [], []⟩) := by
  refine ⟨?_, ?_, ?_⟩
  · cases hins : (insert_order now ("FREE-" ++ toString now) (pyStripStr nm) (pyStripStr em)
        (pyStripStr wa) 0 db.orders).2 <;>
      simp [create_order, pyStrip, pyInt, h1, h2, hins]
  · intro hfresh
    have hins : (insert_order now ("FREE-" ++ toString now) (pyStripStr nm) (pyStripStr em)
        (pyStripStr wa) 0 db.orders).2 = true := by
      simp [insert_order, hfresh]
    simp [create_order, pyStrip, pyInt, h1, h2, hins,
      insert_order_success _ _ _ _ _ _ _ hins]
  · intro hconf
    have hins : (insert_order now ("FREE-" ++ toString now) (pyStripStr nm) (pyStripStr em)
        (pyStripStr wa) 0 db.orders).2 = false := by
      simp [insert_order, hconf]
    simp [create_order, pyStrip, pyInt, h1, h2, hins]

theorem c7_free_path_witness :
    (create_order 7 (Except.error ())
        ⟨some (JVal.jstr "Alice"), some (JVal.jstr "a@b.c"), some (JVal.jstr "+91"),
         some (JVal.jint 0)⟩ init_db).gwCalls = [] ∧
    create_order 7 (Except.error ())
        ⟨some (JVal.jstr "Alice"), some (JVal.jstr "a@b.c"), some (JVal.jstr "+91"),
         some (JVal.jint 0)⟩ init_db
      = ⟨{ code := 200, status := "success", message := "Free book access created. Email sent!",
           order_id := some "FREE-7", amount := some 0, is_free := some true },
         ⟨[⟨"FREE-7", "Alice", "a@b.c", "+91", 0, "created", none, 7, 7⟩], []⟩,
         [⟨"a@b.c", freeSubject, true⟩], []⟩ := by
  refine ⟨(c7_free_path 7 (Except.error ()) "Alice" "a@b.c" "+91" init_db
    (by decide) (by decide)).1, ?_⟩
  rw [(c7_free_path 7 (Except.error ()) "Alice" "a@b.c" "+91" init_db
    (by decide) (by decide)).2.1 (by decide)]
  decide

/-- C8: for a valid create request with amount > 0, the payment gateway is
invoked with exactly amount*100 minor units, and the gateway-assigned
order id becomes the local order id under which the record is persisted
with status `created` (stated here for the non-conflicting id, the only
case in which persistence succeeds). -/
theorem c8_paid_path (now : Nat) (gid nm em wa : String) (amt : Int) (db : DB)
    (h1 : strContains (pyStripStr em) '@' = true)
    (h2 : strContains (pyStripStr em) '.' = true)
    (hpos : 0 < amt)
    (hfresh : db.orders.any (fun o => o.id == gid) = false) :
    create_order now (Except.ok gid)
        ⟨some (JVal.jstr nm), some (JVal.jstr em), some (JVal.jstr wa), some (JVal.jint amt)⟩ db
      = ⟨{ code := 200, status := "success", message := "Order created successfully",
           order_id := some gid, amount := some amt, is_free := some false,
           razorpay_order_id := some gid },
         { db with orders := db.orders ++
             [⟨gid, pyStripStr nm, pyStripStr em, pyStripStr wa, amt, "created", none,
               now, now⟩] },
         [], [amt * 100]⟩ := by
  have hne : (amt == 0) = false := beq_eq_false_iff_ne.mpr hpos.ne'
  have hnl : ¬amt < 0 := not_lt.mpr hpos.le
  have hins : (insert_order now gid (pyStripStr nm) (pyStripStr em) (pyStripStr wa) amt
      db.orders).2 = true := by
    simp [insert_order, hfresh]
  simp [create_order, pyStrip, pyInt, h1, h2, hne, hnl, hins,
    insert_order_success _ _ _ _ _ _ _ hins]

theorem c8_paid_path_witness :
    create_order 8 (Except.ok "order_abc")
        ⟨some (JVal.jstr "Bob"), some (JVal.jstr "b@x.io"), some (JVal.jstr "+92"),
         some (JVal.jint 99)⟩ init_db
      = ⟨{ code := 200, status := "success", message := "Order created successfully",
           order_id := some "order_abc", amount := some 99, is_free := some false,
           razorpay_order_id := some "order_abc" },
         ⟨[⟨"order_abc", "Bob", "b@x.io", "+92", 99, "created", none, 8, 8⟩], []⟩,
         [], [9900]⟩ := by
  rw [c8_paid_path 8 "order_abc" "Bob" "b@x.io" "+92" 99 init_db
    (by decide) (by decide) (by decide) (by decide)]
  decide

/-- C9: for a valid create request with amount > 0 whose gateway
order-creation call fails, the handler answers with the 500 server error
caused by the gateway failure and persists nothing: the database is
unchanged and no notification is sent (the gateway was invoked once, with
amount*100). -/
theorem c9_gateway_failure (now : Nat) (nm em wa : String) (amt : Int) (db : DB)
    (h1 : strContains (pyStripStr em) '@' = true)
    (h2 : strContains (pyStripStr em) '.' = true)
    (hpos : 0 < amt) :
    create_order now (Except.error ())
        ⟨some (JVal.jstr nm), some (JVal.jstr em), some (JVal.jstr wa), some (JVal.jint amt)⟩ db
      = ⟨{ code := 500, status := "error", message := "Server error" }, db, [], [amt * 100]⟩ := by
  have hne : (amt == 0) = false := beq_eq_false_iff_ne.mpr hpos.ne'
  have hnl : ¬amt < 0 := not_lt.mpr hpos.le
  simp [create_order, pyStrip, pyInt, h1, h2, hne, hnl]

theorem c9_gateway_failure_witness :
    create_order 9 (Except.error ())
        ⟨some (JVal.jstr "Bob"), some (JVal.jstr "b@x.io"), some (JVal.jstr "+92"),
         some (JVal.jint 3)⟩ init_db
      = ⟨{ code := 500, status := "error", message := "Server error" }, init_db, [], [300]⟩ := by
  rw [c9_gateway_failure 9 "Bob" "b@x.io" "+92" 3 init_db (by decide) (by decide) (by decide)]
  decide

/-- C10: no handler ever writes the payments audit table: it is created
empty by init_db, and each of the four endpoints leaves it exactly as it
was. -/
theorem c10_payments_untouched (now : Nat) (gw : Except Unit String) (secret goid : String)
    (creq : CreateReq) (vreq : VerifyReq) (sreq : SendBookReq) (db : DB) :
    init_db.payments = [] ∧
    (create_order now gw creq db).db.payments = db.payments ∧
    (verify_payment now secret vreq db).db.payments = db.payments ∧
    (get_order_details goid db).db.payments = db.payments ∧
    (send_book sreq db).db.payments = db.payments := by
  refine ⟨rfl, ?_, ?_, ?_, ?_⟩
  · unfold create_order
    repeat' split
    all_goals rfl
  · simp only [verify_payment]
    repeat' split
    all_goals rfl
  · rw [get_order_details_db]
  · rw [send_book_db]

/-- C6: verifying twice with identical valid arguments (correct signature,
order present) reports success on both calls, and after each call the
stored record for the order has status `paid`; the second call does not
regress it to `created`. -/
theorem c6_verify_idempotent (n1 n2 : Nat) (secret ro rp oid : String) (db : DB) (o : OrderRec)
    (hro : ro ≠ "") (hrp : rp ≠ "") (hoid : oid ≠ "")
    (hfind : get_order oid db.orders = some o) :
    (verify_payment n1 secret
        ⟨some ro, some rp, some (hmacHexDigest secret (ro ++ "|" ++ rp)), some oid⟩
        db).resp.status = "success" ∧
    (verify_payment n2 secret
        ⟨some ro, some rp, some (hmacHexDigest secret (ro ++ "|" ++ rp)), some oid⟩
        (verify_payment n1 secret
          ⟨some ro, some rp, some (hmacHexDigest secret (ro ++ "|" ++ rp)), some oid⟩
          db).db).resp.status = "success" ∧
    get_order oid (verify_payment n1 secret
        ⟨some ro, some rp, some (hmacHexDigest secret (ro ++ "|" ++ rp)), some oid⟩
        db).db.orders = some (updOrder n1 rp "paid" o) ∧
    get_order oid (verify_payment n2 secret
        ⟨some ro, some rp, some (hmacHexDigest secret (ro ++ "|" ++ rp)), some oid⟩
        (verify_payment n1 secret
          ⟨some ro, some rp, some (hmacHexDigest secret (ro ++ "|" ++ rp)), some oid⟩
          db).db).db.orders = some (updOrder n2 rp "paid" (updOrder n1 rp "paid" o)) ∧
    (updOrder n1 rp "paid" o).status = "paid" ∧
    (updOrder n2 rp "paid" (updOrder n1 rp "paid" o)).status = "paid" := by
  have h1 := verify_payment_valid n1 secret ro rp oid db hro hrp hoid
  have hget1 : get_order oid (verify_payment n1 secret
      ⟨some ro, some rp, some (hmacHexDigest secret (ro ++ "|" ++ rp)), some oid⟩
      db).db.orders = some (updOrder n1 rp "paid" o) := by
    rw [h1]
    show get_order oid (update_order_payment n1 oid rp "paid" db.orders).1 = _
    rw [get_order_update, hfind]
    rfl
  have h2 := verify_payment_valid n2 secret ro rp oid
    (verify_payment n1 secret
      ⟨some ro, some rp, some (hmacHexDigest secret (ro ++ "|" ++ rp)), some oid⟩
      db).db hro hrp hoid
  have hget2 : get_order oid (verify_payment n2 secret
      ⟨some ro, some rp, some (hmacHexDigest secret (ro ++ "|" ++ rp)), some oid⟩
      (verify_payment n1 secret
        ⟨some ro, some rp, some (hmacHexDigest secret (ro ++ "|" ++ rp)), some oid⟩
        db).db).db.orders = some (updOrder n2 rp "paid" (updOrder n1 rp "paid" o)) := by
    rw [h2]
    show get_order oid (update_order_payment n2 oid rp "paid" _).1 = _
    rw [get_order_update, hget1]
    rfl
  exact ⟨by rw [h1], by rw [h2], hget1, hget2, rfl, rfl⟩

/-- C3 counterexample: in the reachable state obtained by creating a free
order (id `FREE-5`) and verifying it with payment id `p1`, the stored
payment_id is `p1`; a second successful verification with payment id `p2`
overwrites it to `p2`. So payment_id is not written exactly once and is
overwritten after the created-to-paid transition. -/
theorem c3_counterexample :
    Option.map (fun o => o.payment_id)
      (get_order "FREE-5"
        (verify_payment 6 "sec"
          ⟨some "ro", some "p1", some (hmacHexDigest "sec" ("ro" ++ "|" ++ "p1")), some "FREE-5"⟩
          (create_order 5 (Except.error ())
            ⟨some (JVal.jstr "Alice"), some (JVal.jstr "a@b.c"), some (JVal.jstr "+91"),
             some (JVal.jint 0)⟩ init_db).db).db.orders) = some (some "p1") ∧
    Option.map (fun o => o.payment_id)
      (get_order "FREE-5"
        (verify_payment 7 "sec"
          ⟨some "ro", some "p2", some (hmacHexDigest "sec" ("ro" ++ "|" ++ "p2")), some "FREE-5"⟩
          (verify_payment 6 "sec"
            ⟨some "ro", some "p1", some (hmacHexDigest "sec" ("ro" ++ "|" ++ "p1")),
             some "FREE-5"⟩
            (create_order 5 (Except.error ())
              ⟨some (JVal.jstr "Alice"), some (JVal.jstr "a@b.c"), some (JVal.jstr "+91"),
               some (JVal.jint 0)⟩ init_db).db).db).db.orders) = some (some "p2") := by
  have hc : (create_order 5 (Except.error ())
      ⟨some (JVal.jstr "Alice"), some (JVal.jstr "a@b.c"), some (JVal.jstr "+91"),
       some (JVal.jint 0)⟩ init_db).db
      = (⟨[⟨"FREE-5", "Alice", "a@b.c", "+91", 0, "created", none, 5, 5⟩], []⟩ : DB) := by
    decide
  have h1 := verify_payment_valid 6 "sec" "ro" "p1" "FREE-5"
    (⟨[⟨"FREE-5", "Alice", "a@b.c", "+91", 0, "created", none, 5, 5⟩], []⟩ : DB)
    (by decide) (by decide) (by decide)
  have hdb1 : (verify_payment 6 "sec"
      ⟨some "ro", some "p1", some (hmacHexDigest "sec" ("ro" ++ "|" ++ "p1")), some "FREE-5"⟩
      (⟨[⟨"FREE-5", "Alice", "a@b.c", "+91", 0, "created", none, 5, 5⟩], []⟩ : DB)).db
      = (⟨[⟨"FREE-5", "Alice", "a@b.c", "+91", 0, "paid", some "p1", 5, 6⟩], []⟩ : DB) := by
    rw [h1]
    decide
  have h2 := verify_payment_valid 7 "sec" "ro" "p2" "FREE-5"
    (⟨[⟨"FREE-5", "Alice", "a@b.c", "+91", 0, "paid", some "p1", 5, 6⟩], []⟩ : DB)
    (by decide) (by decide) (by decide)
  constructor
  · rw [hc, hdb1]
    decide
  · rw [hc, hdb1, h2]
    decide

/-- C3 (amended): the paid status is monotone — no operation ever turns a
paid order back to created, and any order newly appearing in the table has
status `created` with no payment_id — but payment_id is not written
exactly once: each successful verification (re)writes it to the payment id
supplied in that call. CreateOrder, GetOrder and SendBook leave every
existing order's status and payment_id unchanged; VerifyPayment either
leaves the table unchanged or applies exactly the payment update. -/
theorem c3_amended (now : Nat) (gw : Except Unit String) (secret goid : String)
    (creq : CreateReq) (vreq : VerifyReq) (sreq : SendBookReq) (db : DB) :
    (pidStable db.orders (create_order now gw creq db).db.orders ∧
     freshCreated db.orders (create_order now gw creq db).db.orders) ∧
    (paidPreserved db.orders (verify_payment now secret vreq db).db.orders ∧
     freshCreated db.orders (verify_payment now secret vreq db).db.orders ∧
     ((verify_payment now secret vreq db).db.orders = db.orders ∨
      (verify_payment now secret vreq db).db.orders
        = (update_order_payment now (vreq.order_id.getD "") (vreq.razorpay_payment_id.getD "")
            "paid" db.orders).1)) ∧
    pidStable db.orders (get_order_details goid db).db.orders ∧
    pidStable db.orders (send_book sreq db).db.orders := by
  refine ⟨⟨?_, ?_⟩, ⟨?_, ?_, verify_payment_orders_cases now secret vreq db⟩, ?_, ?_⟩
  · rcases create_order_orders_cases now gw creq db with h | ⟨oid, nm, em, wa, amt, h⟩
    · rw [h]; exact pidStable_refl _
    · rw [h]; exact pidStable_append _ _
  · rcases create_order_orders_cases now gw creq db with h | ⟨oid, nm, em, wa, amt, h⟩
    · rw [h]; exact freshCreated_refl _
    · rw [h]; exact freshCreated_append_new _ _ _ _ _ _ _
  · rcases verify_payment_orders_cases now secret vreq db with h | h
    · rw [h]; exact pidStable_paidPreserved _ _ (pidStable_refl _)
    · rw [h]; exact paidPreserved_update _ _ _ _
  · rcases verify_payment_orders_cases now secret vreq db with h | h
    · rw [h]; exact freshCreated_refl _
    · rw [h]; exact freshCreated_update _ _ _ _ _
  · rw [get_order_details_db]; exact pidStable_refl _
  · rw [send_book_db]; exact pidStable_refl _

/-- C4 counterexample: updating the payment of an order id absent from the
store does not fail — it reports success and changes nothing — and
consequently VerifyPayment with a valid signature but an unknown local
order id reports success. -/
theorem c4_counterexample :
    update_order_payment 0 "missing" "p" "paid" [] = ([], true) ∧
    (verify_payment 0 "sec"
        ⟨some "ro", some "rp", some (hmacHexDigest "sec" ("ro" ++ "|" ++ "rp")), some "missing"⟩
        init_db).resp.status = "success" := by
  refine ⟨rfl, ?_⟩
  rw [verify_payment_valid 0 "sec" "ro" "rp" "missing" init_db
    (by decide) (by decide) (by decide)]

/-- C4 (amended): the store's payment-update never fails: on an absent
orderId it succeeds while modifying no row, so VerifyPayment with a valid
signature and an unknown localOrderId reports success (sending no
notification and leaving the store unchanged); for an orderId that is
present, the update sets payment_id and status and refreshes
updated_at. -/
theorem c4_amended (now : Nat) (oid pid st secret ro rp : String) (orders : List OrderRec)
    (db : DB) (hro : ro ≠ "") (hrp : rp ≠ "") (hoid : oid ≠ "") :
    (update_order_payment now oid pid st orders).2 = true ∧
    ((∀ o ∈ orders, o.id ≠ oid) → (update_order_payment now oid pid st orders).1 = orders) ∧
    (∀ o ∈ orders, o.id = oid →
      updOrder now pid st o ∈ (update_order_payment now oid pid st orders).1) ∧
    ((∀ o ∈ db.orders, o.id ≠ oid) →
      verify_payment now secret
          ⟨some ro, some rp, some (hmacHexDigest secret (ro ++ "|" ++ rp)), some oid⟩ db
        = ⟨{ code := 200, status := "success", message := "Payment verified successfully",
             payment_id := some rp, order_id := some oid }, db, [], []⟩) := by
  refine ⟨rfl, fun h => update_order_payment_absent now oid pid st orders h, ?_, ?_⟩
  · intro o ho heq
    have hcond : (o.id == oid) = true := beq_iff_eq.mpr heq
    rw [update_order_payment_eq]
    have hmem := List.mem_map_of_mem
      (fun o => if o.id == oid then updOrder now pid st o else o) ho
    simpa [hcond] using hmem
  · intro habs
    rw [verify_payment_valid now secret ro rp oid db hro hrp hoid,
        update_order_payment_absent now oid rp "paid" db.orders habs,
        get_order_absent oid db.orders habs]

theorem c4_amended_witness :
    (update_order_payment 3 "o9" "p" "paid" []).2 = true ∧
    verify_payment 3 "sec"
        ⟨some "ro", some "rp", some (hmacHexDigest "sec" ("ro" ++ "|" ++ "rp")), some "o9"⟩
        init_db
      = ⟨{ code := 200, status := "success", message := "Payment verified successfully",
           payment_id := some "rp", order_id := some "o9" }, init_db, [], []⟩ :=
  ⟨(c4_amended 3 "o9" "p" "paid" "sec" "ro" "rp" [] init_db
      (by decide) (by decide) (by decide)).1,
   (c4_amended 3 "o9" "p" "paid" "sec" "ro" "rp" [] init_db
      (by decide) (by decide) (by decide)).2.2.2 (by simp [init_db])⟩

theorem c6_verify_idempotent_witness :
    (verify_payment 1 "sec"
        ⟨some "ro", some "rp", some (hmacHexDigest "sec" ("ro" ++ "|" ++ "rp")), some "ord1"⟩
        ⟨[⟨"ord1", "Alice", "a@b.c", "+91", 99, "created", none, 0, 0⟩], []⟩).resp.status
      = "success" ∧
    (verify_payment 2 "sec"
        ⟨some "ro", some "rp", some (hmacHexDigest "sec" ("ro" ++ "|" ++ "rp")), some "ord1"⟩
        (verify_payment 1 "sec"
          ⟨some "ro", some "rp", some (hmacHexDigest "sec" ("ro" ++ "|" ++ "rp")), some "ord1"⟩
          ⟨[⟨"ord1", "Alice", "a@b.c", "+91", 99, "created", none, 0, 0⟩], []⟩).db).resp.status
      = "success" ∧
    get_order "ord1" (verify_payment 1 "sec"
        ⟨some "ro", some "rp", some (hmacHexDigest "sec" ("ro" ++ "|" ++ "rp")), some "ord1"⟩
        ⟨[⟨"ord1", "Alice", "a@b.c", "+91", 99, "created", none, 0, 0⟩], []⟩).db.orders
      = some (updOrder 1 "rp" "paid" ⟨"ord1", "Alice", "a@b.c", "+91", 99, "created", none, 0, 0⟩) ∧
    get_order "ord1" (verify_payment 2 "sec"
        ⟨some "ro", some "rp", some (hmacHexDigest "sec" ("ro" ++ "|" ++ "rp")), some "ord1"⟩
        (verify_payment 1 "sec"
          ⟨some "ro", some "rp", some (hmacHexDigest "sec" ("ro" ++ "|" ++ "rp")), some "ord1"⟩
          ⟨[⟨"ord1", "Alice", "a@b.c", "+91", 99, "created", none, 0, 0⟩], []⟩).db).db.orders
      = some (updOrder 2 "rp" "paid"
          (updOrder 1 "rp" "paid" ⟨"ord1", "Alice", "a@b.c", "+91", 99, "created", none, 0, 0⟩)) ∧
    (updOrder 1 "rp" "paid" ⟨"ord1", "Alice", "a@b.c", "+91", 99, "created", none, 0, 0⟩).status
      = "paid" ∧
    (updOrder 2 "rp" "paid"
        (updOrder 1 "rp" "paid" ⟨"ord1", "Alice", "a@b.c", "+91", 99, "created", none, 0, 0⟩)).status
      = "paid" :=
  c6_verify_idempotent 1 2 "sec" "ro" "rp" "ord1"
    ⟨[⟨"ord1", "Alice", "a@b.c", "+91", 99, "created", none, 0, 0⟩], []⟩
    ⟨"ord1", "Alice", "a@b.c", "+91", 99, "created", none, 0, 0⟩
    (by decide) (by decide) (by decide) rfl

end CwD
